import Mathlib

/-!
Verification of the LabJacker U3 control logic (`labjacker_u3.py`).

The Python source is shallowly embedded: the sequence engine
(`LabJackerSeq`), the analog-input poll handler (`update_ain`), the state
log writer (`log_state`) and the FIO toggle (`toggle_fio_state`) become
pure Lean functions.  Qt signal emissions are modelled as events appended
to a trace; the `quit` flag, which is written by another thread, is
modelled as an oracle `quitAt : Nat → Bool` read once per check point (one
check per `run_command` call and one per loop iteration, in program
order).  Timestamps are modelled as an opaque oracle `tsAt : Nat → String`
indexed by the same counter.  Python `eval` of the calibration formula is
replaced by a restricted arithmetic expression tree over the variable `v`,
evaluated in ℚ; evaluation failure (e.g. division by zero) is `none`.
-/

namespace LabJacker

/-- The four FIO valve ports used by the application (fio4 .. fio7). -/
inductive Fio
  | fio4
  | fio5
  | fio6
  | fio7
deriving DecidableEq, Repr

/-- `io_labels` for the FIO ports (source lines 396-405). -/
def ioLabel : Fio → String
  | .fio4 => "Valve 1"
  | .fio5 => "Valve 2"
  | .fio6 => "Valve 3"
  | .fio7 => "Valve 4"

/-- `io_states`: friendly labels for the FIO states (source lines 407-424).
A dict lookup at a key other than 0 or 1 raises in Python; that is `none`
here. -/
def ioStateLabel : Fio → Nat → Option String
  | _, 0 => some "Open"
  | _, 1 => some "Closed"
  | _, _ => none

/-- `init_cond` (source lines 128-133): required initial conditions for the
sequence to run, in the dict's insertion order. -/
def initCond : List (Fio × Nat) :=
  [(.fio4, 1), (.fio5, 1), (.fio6, 1), (.fio7, 1)]

/-- Events emitted by the sequence thread: Qt signal emissions and the
`time.sleep` side effect, in program order. -/
inductive QtEvent
  | setLogFile
  | setSampleName
  | setSeqInt
  | setLoopCount
  | logStateEv (timestamp : String)
  | toggleFio (fioId : Nat)
  | toggleRun (b : Bool)
  | logMsg (msg : String)
  | displayAlert (msg : String)
  | sleepEv (secs : Nat)
deriving DecidableEq, Repr

/-- `display_state_error` (source lines 177-199): the alert message listing
the required state per port, built from `io_labels` and `io_states`. -/
def displayStateErrorMsg : String :=
  let reqState := initCond.map fun pc =>
    "  " ++ ioLabel pc.1 ++ " : " ++ (ioStateLabel pc.1 pc.2).getD ""
  "Required initial state:    \n\n" ++ String.intercalate "\n" reqState

/-- Loop body of `check_init_state` (source lines 207-224): walk the
required conditions; on the first mismatch emit `toggle_run(True)`, the
state-error alert and one log line and return `False`. -/
def checkInitAux (status : Fio → Option Nat) (ts : String) :
    List (Fio × Nat) → Bool × List QtEvent
  | [] => (true, [])
  | pc :: rest =>
      if status pc.1 ≠ some pc.2 then
        (false,
         [QtEvent.toggleRun true,
          QtEvent.displayAlert displayStateErrorMsg,
          QtEvent.logMsg
            (ts ++ " : valve states do not match required initial state")])
      else checkInitAux status ts rest

/-- `check_init_state` (source lines 201-226).  `status` gives the live FIO
states (`none` when the device is disconnected); `ts` is the timestamp the
failure path would format. -/
def check_init_state (status : Fio → Option Nat) (ts : String) :
    Bool × List QtEvent :=
  checkInitAux status ts initCond

/-- The command strings appearing in the sequence list, as a closed set:
`time.sleep(n)`, `self.toggle_fio.emit(i)` and
`self.toggle_run.emit(b)`. -/
inductive SeqCmd
  | sleepCmd (secs : Nat)
  | toggleFioCmd (fioId : Nat)
  | toggleRunCmd (b : Bool)
deriving DecidableEq, Repr

/-- One entry of the sequence list: `[command, message, log_state_flag]`. -/
structure Step where
  cmd : SeqCmd
  msg : String
  logState : Bool
deriving DecidableEq, Repr

/-- `set_sequence` (source lines 228-254): the sequence list built for a
given step interval, entry for entry in source order. -/
def set_sequence (seq_int : Nat) : List Step :=
  let sleepStep := SeqCmd.sleepCmd seq_int
  let waitMsg := "waiting for " ++ toString seq_int ++ " seconds"
  [⟨.sleepCmd 0, "sequence starting ...", true⟩,
   ⟨.toggleFioCmd 5, "opening valve 2", false⟩,
   ⟨.toggleFioCmd 6, "opening valve 3", false⟩,
   ⟨.toggleFioCmd 7, "opening valve 4", false⟩,
   ⟨sleepStep, waitMsg, false⟩,
   ⟨.toggleFioCmd 5, "closing valve 2", true⟩,
   ⟨.toggleFioCmd 7, "closing valve 4", false⟩,
   ⟨.toggleFioCmd 4, "opening valve 1", false⟩,
   ⟨sleepStep, waitMsg, false⟩,
   ⟨.toggleFioCmd 4, "closing valve 1", true⟩,
   ⟨sleepStep, waitMsg, false⟩,
   ⟨.toggleFioCmd 5, "opening valve 2", true⟩,
   ⟨sleepStep, waitMsg, false⟩,
   ⟨.toggleFioCmd 7, "opening valve 4", true⟩,
   ⟨sleepStep, waitMsg, false⟩,
   ⟨.toggleFioCmd 5, "closing valve 2", true⟩,
   ⟨.toggleFioCmd 6, "closing valve 3", false⟩,
   ⟨.toggleFioCmd 7, "closing valve 4", false⟩]

/-- Predicate: the event is a `display_alert` emission. -/
def isAlert : QtEvent → Bool
  | .displayAlert _ => true
  | _ => false

/-- Predicate: the event is a `log_msg` emission. -/
def isLogMsg : QtEvent → Bool
  | .logMsg _ => true
  | _ => false

/-- C1 (as stated) is false: at interval 5 the sequence list does not have
17 entries with 5 flagged; it has 18 entries with 6 flagged. -/
theorem C1_counterexample :
    ¬ ((set_sequence 5).length = 17 ∧
       ((set_sequence 5).filter (fun s => s.logState)).length = 5) := by
  decide

/-- C1 (amended): for every step interval > 0, the sequence list built by
`set_sequence` contains exactly 18 entries, of which exactly 6 are flagged
to log a StatusStore snapshot, independent of the interval value. -/
theorem C1_step_list_shape (n : Nat) (_h : 0 < n) :
    (set_sequence n).length = 18 ∧
    ((set_sequence n).filter (fun s => s.logState)).length = 6 := by
  exact ⟨rfl, rfl⟩

/-- Witness for C1: the amended statement evaluated at interval 5. -/
theorem C1_step_list_shape_witness :
    (set_sequence 5).length = 18 ∧
    ((set_sequence 5).filter (fun s => s.logState)).length = 6 :=
  C1_step_list_shape 5 (by decide)

/-- C2: `check_init_state` returns true iff all four valve ports equal the
required Closed state (`some 1`); on any mismatch it returns false and the
emitted trace is exactly one `toggle_run`, one alert listing the required
state per port with human-readable labels, and one log line. -/
theorem C2_check_init_state (status : Fio → Option Nat) (ts : String) :
    ((check_init_state status ts).1 = true ↔
      (status .fio4 = some 1 ∧ status .fio5 = some 1 ∧
       status .fio6 = some 1 ∧ status .fio7 = some 1)) ∧
    ((check_init_state status ts).1 = false →
      (check_init_state status ts).2 =
        [QtEvent.toggleRun true,
         QtEvent.displayAlert
           ("Required initial state:    \n\n  Valve 1 : Closed\n" ++
            "  Valve 2 : Closed\n  Valve 3 : Closed\n  Valve 4 : Closed"),
         QtEvent.logMsg
           (ts ++ " : valve states do not match required initial state")]) := by
  have hmsg : displayStateErrorMsg =
      "Required initial state:    \n\n  Valve 1 : Closed\n" ++
      "  Valve 2 : Closed\n  Valve 3 : Closed\n  Valve 4 : Closed" := by
    decide
  by_cases h4 : status .fio4 = some 1 <;>
    by_cases h5 : status .fio5 = some 1 <;>
      by_cases h6 : status .fio6 = some 1 <;>
        by_cases h7 : status .fio7 = some 1 <;>
          simp [check_init_state, initCond, checkInitAux, h4, h5, h6, h7,
            hmsg]

/-- Witness for C2: a state with valve 1 Open fails the check and emits
exactly the single-alert, single-log trace. -/
theorem C2_check_init_state_witness :
    (check_init_state (fun _ => some 0) "T").2 =
      [QtEvent.toggleRun true,
       QtEvent.displayAlert
         ("Required initial state:    \n\n  Valve 1 : Closed\n" ++
          "  Valve 2 : Closed\n  Valve 3 : Closed\n  Valve 4 : Closed"),
       QtEvent.logMsg
         ("T" ++ " : valve states do not match required initial state")] :=
  (C2_check_init_state (fun _ => some 0) "T").2 (by decide)

/-- Environment of a sequence run: the `quit` flag as read at the k-th
quit check (one check per `run_command` call and one per loop iteration,
in program order), and the timestamp returned by `get_timestamp` around
the k-th check. -/
structure RunEnv where
  quitAt : Nat → Bool
  tsAt : Nat → String

/-- The event produced by `eval(seq_cmd)` for each command string. -/
def execCmd : SeqCmd → QtEvent
  | .sleepCmd n => .sleepEv n
  | .toggleFioCmd i => .toggleFio i
  | .toggleRunCmd b => .toggleRun b

/-- `run_command` (source lines 150-175) at quit-check index `k`: if the
quit flag is set, do nothing; otherwise emit the log message, then (when
flagged) the `log_state` emission, then run the command.  Returns the
emitted events and the next check index. -/
def run_command (env : RunEnv) (k : Nat) (c : Step) :
    List QtEvent × Nat :=
  if env.quitAt k then ([], k + 1)
  else
    let ts := env.tsAt k
    (QtEvent.logMsg (ts ++ " : " ++ c.msg) ::
       ((if c.logState then [QtEvent.logStateEv ts] else []) ++
        [execCmd c.cmd]),
     k + 1)

/-- The inner loop of `run` (source lines 322-324): run each command of the
sequence in order, threading the check index. -/
def runSeqSteps (env : RunEnv) : Nat → List Step → List QtEvent × Nat
  | k, [] => (([] : List QtEvent), k)
  | k, s :: rest =>
      let r1 := run_command env k s
      let r2 := runSeqSteps env r1.2 rest
      (r1.1 ++ r2.1, r2.2)

/-- One iteration of the outer loop (source lines 313-324): check the quit
flag; if clear, log the loop-number message and run the whole sequence; if
set, skip the iteration body entirely. -/
def runIter (env : RunEnv) (seqList : List Step) (total i k : Nat) :
    List QtEvent × Nat :=
  if env.quitAt k then (([] : List QtEvent), k + 1)
  else
    let ts := env.tsAt k
    let msg := ts ++ " : starting sequence loop " ++ toString (i + 1) ++
      " of " ++ toString total
    let r := runSeqSteps env (k + 1) seqList
    (QtEvent.logMsg msg :: r.1, r.2)

/-- The outer loop of `run`: iterate `runIter` over the iteration
indices. -/
def runLoops (env : RunEnv) (seqList : List Step) (total : Nat) :
    Nat → List Nat → List QtEvent × Nat
  | k, [] => (([] : List QtEvent), k)
  | k, i :: rest =>
      let r1 := runIter env seqList total i k
      let r2 := runLoops env seqList total r1.2 rest
      (r1.1 ++ r2.1, r2.2)

/-- The four run parameters as eventually answered through the dialog
signals.  Strings: the empty string is the cancelled/falsy answer.
Integers (sent back as either an int or the empty string): `none` models
the empty-string answer. -/
structure RunParams where
  log_file : String
  sample_name : String
  seq_int : Option Nat
  loop_count : Option Nat

/-- Python falsiness of an integer parameter slot (`''` or `0`). -/
def intFalsy : Option Nat → Bool
  | none => true
  | some n => n == 0

/-- `LabJackerSeq.run` (source lines 256-326): precondition check, the four
parameter gates in order with their abort paths, then the loop over the
sequence and the final `finished` command. -/
def seqRun (env : RunEnv) (status : Fio → Option Nat) (p : RunParams) :
    List QtEvent :=
  let chk := check_init_state status (env.tsAt 0)
  if chk.1 then
    QtEvent.setLogFile ::
    (if p.log_file = "" then
      (run_command env 0
        ⟨.toggleRunCmd true, "no output file specified. not starting",
         false⟩).1
    else
      QtEvent.setSampleName ::
      (if p.sample_name = "" then
        (run_command env 0
          ⟨.toggleRunCmd true, "no sample name specified. not starting",
           false⟩).1
      else
        QtEvent.setSeqInt ::
        (if intFalsy p.seq_int then
          (run_command env 0
            ⟨.toggleRunCmd true,
             "no time step interval specified. not starting", false⟩).1
        else
          QtEvent.setLoopCount ::
          (if intFalsy p.loop_count then
            (run_command env 0
              ⟨.toggleRunCmd true,
               "no loop count specified. not starting", false⟩).1
          else
            let n := p.seq_int.getD 0
            let total := p.loop_count.getD 0
            let sl := set_sequence n
            let r := runLoops env sl total 0 (List.range total)
            r.1 ++
              (run_command env r.2
                ⟨.toggleRunCmd true, "finished", false⟩).1))))
  else chk.2

/-- When all four valve ports are Closed the precondition check passes. -/
theorem checkInit_true_of_closed (status : Fio → Option Nat) (ts : String)
    (hs : ∀ f, status f = some 1) :
    (check_init_state status ts).1 = true := by
  simp [check_init_state, initCond, checkInitAux, hs]

/-- C3: after the precondition check succeeds and with no cancellation, the
four parameters are requested in the fixed order log path, sample name,
step interval, loop count; an empty answer to any one of them ends the run
with exactly that parameter's log message and `toggle_run`, with no
sequence step executed and no later parameter requested. -/
theorem C3_parameter_gates (env : RunEnv) (status : Fio → Option Nat)
    (p : RunParams) (hq : ∀ k, env.quitAt k = false)
    (hs : ∀ f, status f = some 1) :
    (p.log_file = "" →
      seqRun env status p =
        [QtEvent.setLogFile,
         QtEvent.logMsg
           (env.tsAt 0 ++ " : no output file specified. not starting"),
         QtEvent.toggleRun true]) ∧
    (p.log_file ≠ "" → p.sample_name = "" →
      seqRun env status p =
        [QtEvent.setLogFile, QtEvent.setSampleName,
         QtEvent.logMsg
           (env.tsAt 0 ++ " : no sample name specified. not starting"),
         QtEvent.toggleRun true]) ∧
    (p.log_file ≠ "" → p.sample_name ≠ "" → intFalsy p.seq_int = true →
      seqRun env status p =
        [QtEvent.setLogFile, QtEvent.setSampleName, QtEvent.setSeqInt,
         QtEvent.logMsg
           (env.tsAt 0 ++
            " : no time step interval specified. not starting"),
         QtEvent.toggleRun true]) ∧
    (p.log_file ≠ "" → p.sample_name ≠ "" → intFalsy p.seq_int = false →
      intFalsy p.loop_count = true →
      seqRun env status p =
        [QtEvent.setLogFile, QtEvent.setSampleName, QtEvent.setSeqInt,
         QtEvent.setLoopCount,
         QtEvent.logMsg
           (env.tsAt 0 ++ " : no loop count specified. not starting"),
         QtEvent.toggleRun true]) := by
  have hc := checkInit_true_of_closed status (env.tsAt 0) hs
  refine ⟨fun h1 => ?_, fun h1 h2 => ?_, fun h1 h2 h3 => ?_,
    fun h1 h2 h3 h4 => ?_⟩ <;>
    (simp [seqRun, hc, h1, run_command, hq, execCmd, *]
     rw [String.append_assoc]
     congr 1)

/-- Witness for C3: a concrete cancelled log-file answer produces exactly
the abort trace. -/
theorem C3_parameter_gates_witness :
    seqRun ⟨fun _ => false, fun _ => "T"⟩ (fun _ => some 1)
        ⟨"", "s", some 1, some 1⟩ =
      [QtEvent.setLogFile,
       QtEvent.logMsg ("T" ++ " : no output file specified. not starting"),
       QtEvent.toggleRun true] :=
  (C3_parameter_gates ⟨fun _ => false, fun _ => "T"⟩ (fun _ => some 1)
    ⟨"", "s", some 1, some 1⟩ (fun _ => rfl) (fun _ => rfl)).1 rfl

/-- Once the quit flag is set (and stays set), the remaining commands of
the current iteration each take their quit check but emit nothing. -/
theorem runSeqSteps_quit (env : RunEnv)
    (hm : ∀ i, env.quitAt i = true → env.quitAt (i + 1) = true) :
    ∀ steps k, env.quitAt k = true →
      (runSeqSteps env k steps).1 = [] ∧
      (runSeqSteps env k steps).2 = k + steps.length := by
  intro steps
  induction steps with
  | nil => intro k hk; simp [runSeqSteps]
  | cons s rest ih =>
      intro k hk
      have h' := ih (k + 1) (hm k hk)
      constructor
      · simp [runSeqSteps, run_command, hk, h'.1]
      · simp [runSeqSteps, run_command, hk, h'.2]
        omega

/-- Once the quit flag is set (and stays set), no later loop iteration
emits anything: its body is skipped at the iteration-head quit check. -/
theorem runLoops_quit (env : RunEnv)
    (hm : ∀ i, env.quitAt i = true → env.quitAt (i + 1) = true)
    (seqList : List Step) (total : Nat) :
    ∀ idxs k, env.quitAt k = true →
      (runLoops env seqList total k idxs).1 = [] := by
  intro idxs
  induction idxs with
  | nil => intro k hk; simp [runLoops]
  | cons i rest ih =>
      intro k hk
      simp [runLoops, runIter, hk, ih (k + 1) (hm k hk)]

/-- C4: if the quit flag is set at the check point after step k (and,
being a one-way cancel signal, stays set), then the step about to start
and every later step of the current iteration emit nothing — though each
still takes its per-step quit check, as the advancing check counter
shows — and no later iteration of the step list begins. -/
theorem C4_cancellation (env : RunEnv)
    (hm : ∀ i, env.quitAt i = true → env.quitAt (i + 1) = true)
    (k : Nat) (hk : env.quitAt k = true) :
    (∀ c, (run_command env k c).1 = []) ∧
    (∀ steps, (runSeqSteps env k steps).1 = [] ∧
       (runSeqSteps env k steps).2 = k + steps.length) ∧
    (∀ seqList total idxs,
       (runLoops env seqList total k idxs).1 = []) :=
  ⟨fun c => by simp [run_command, hk],
   fun steps => runSeqSteps_quit env hm steps k hk,
   fun seqList total idxs =>
     runLoops_quit env hm seqList total idxs k hk⟩

/-- Witness for C4: with the quit flag permanently set, neither the step
list nor any loop iteration emits an event. -/
theorem C4_cancellation_witness :
    (runSeqSteps ⟨fun _ => true, fun _ => ""⟩ 0 (set_sequence 1)).1 = [] ∧
    (runLoops ⟨fun _ => true, fun _ => ""⟩ (set_sequence 1) 3 0
        (List.range 3)).1 = [] := by
  have h := C4_cancellation ⟨fun _ => true, fun _ => ""⟩
    (fun _ h => h) 0 rfl
  exact ⟨(h.2.1 (set_sequence 1)).1, h.2.2 (set_sequence 1) 3 (List.range 3)⟩

/-- C5 as stated is false: a run that passes the precondition and all four
parameter gates but is cancelled before its first iteration emits no
terminal message at all — the final `finished` command is suppressed by
the quit check inside `run_command`. -/
theorem C5_counterexample :
    seqRun ⟨fun _ => true, fun _ => "T"⟩ (fun _ => some 1)
        ⟨"log.csv", "s", some 1, some 2⟩ =
      [QtEvent.setLogFile, QtEvent.setSampleName, QtEvent.setSeqInt,
       QtEvent.setLoopCount] ∧
    (seqRun ⟨fun _ => true, fun _ => "T"⟩ (fun _ => some 1)
        ⟨"log.csv", "s", some 1, some 2⟩).all
      (fun e => !isLogMsg e) = true := by
  exact ⟨rfl, rfl⟩

/-- C5 (amended): a run that passes the precondition and parameter gates
and is never cancelled ends with the `finished` log message followed by
the `toggle_run` emission; a cancelled run emits no terminal message (see
the counterexample). -/
theorem C5_finished (env : RunEnv) (status : Fio → Option Nat)
    (p : RunParams) (hq : ∀ k, env.quitAt k = false)
    (hs : ∀ f, status f = some 1)
    (hl : p.log_file ≠ "") (hn : p.sample_name ≠ "")
    (hi : intFalsy p.seq_int = false)
    (hcnt : intFalsy p.loop_count = false) :
    ∃ es k, seqRun env status p =
      es ++ [QtEvent.logMsg (env.tsAt k ++ " : finished"),
             QtEvent.toggleRun true] := by
  have hc := checkInit_true_of_closed status (env.tsAt 0) hs
  refine ⟨[QtEvent.setLogFile, QtEvent.setSampleName, QtEvent.setSeqInt,
      QtEvent.setLoopCount] ++
    (runLoops env (set_sequence (p.seq_int.getD 0))
      (p.loop_count.getD 0) 0 (List.range (p.loop_count.getD 0))).1,
    (runLoops env (set_sequence (p.seq_int.getD 0))
      (p.loop_count.getD 0) 0 (List.range (p.loop_count.getD 0))).2, ?_⟩
  simp [seqRun, hc, hl, hn, hi, hcnt, run_command, hq, execCmd]
  rw [String.append_assoc]
  congr 1

/-- Witness for C5: a concrete uncancelled run ends with the terminal
message. -/
theorem C5_finished_witness :
    ∃ es, seqRun ⟨fun _ => false, fun _ => "T"⟩ (fun _ => some 1)
        ⟨"f.csv", "s", some 1, some 1⟩ =
      es ++ [QtEvent.logMsg ("T" ++ " : finished"),
             QtEvent.toggleRun true] := by
  obtain ⟨es, k, h⟩ := C5_finished ⟨fun _ => false, fun _ => "T"⟩
    (fun _ => some 1) ⟨"f.csv", "s", some 1, some 1⟩ (fun _ => rfl)
    (fun _ => rfl) (by decide) (by decide) rfl rfl
  exact ⟨es, h⟩

/-- Restricted single-variable arithmetic expression over `v`, replacing
the Python string expression fed to `eval`. -/
inductive CalExpr
  | num (q : ℚ)
  | var
  | add (a b : CalExpr)
  | sub (a b : CalExpr)
  | mul (a b : CalExpr)
  | div (a b : CalExpr)
deriving DecidableEq, Repr

/-- Evaluate a calibration expression at `v`; `none` models a raised
exception (division by zero here, any evaluation failure in Python). -/
def evalCal : CalExpr → ℚ → Option ℚ
  | .num q, _ => some q
  | .var, v => some v
  | .add a b, v =>
      (evalCal a v).bind fun x => (evalCal b v).map fun y => x + y
  | .sub a b, v =>
      (evalCal a v).bind fun x => (evalCal b v).map fun y => x - y
  | .mul a b, v =>
      (evalCal a v).bind fun x => (evalCal b v).map fun y => x * y
  | .div a b, v =>
      (evalCal a v).bind fun x => (evalCal b v).bind fun y =>
        if y = 0 then none else some (x / y)

/-- `calibration_default` (source line 371): the built-in formula
`(5.0221 * v) - 24.036`. -/
def calibrationDefaultExpr : CalExpr :=
  .sub (.mul (.num ((50221 : ℚ) / 10000)) .var) (.num ((24036 : ℚ) / 1000))

/-- The formula `p = (2 * v) + 1` from the spec example, as loaded from a
calibration file. -/
def calibrationTwoVPlusOne : CalExpr :=
  .add (.mul (.num 2) .var) (.num 1)

/-- The fields of `self.status` touched by `update_ain`, plus the mutable
`self.calibration` pressure formula.  `none` is the unavailable marker. -/
structure AinState where
  ain0 : Option ℚ
  ain1 : Option ℚ
  vd : Option ℚ
  pres : Option ℚ
  calPres : CalExpr
deriving DecidableEq, Repr

/-- `update_ain` (source lines 1385-1440) for one poll tick, given the two
analog read results (`none` = the device read raised).  The voltage diff
is `ain1 - ain0` when both are available (the subtraction raises on
`None`, caught into `none`); pressure is computed from the diff only when
the diff is truthy (available **and nonzero**, Python `if v:`), falling
back to the default formula — and replacing the stored one — when the
stored formula fails to evaluate. -/
def update_ain (s : AinState) (read0 read1 : Option ℚ) : AinState :=
  let a0 := read0
  let a1 := read1
  let vd : Option ℚ :=
    match a1, a0 with
    | some x, some y => some (x - y)
    | _, _ => none
  match vd with
  | some v =>
      if v ≠ 0 then
        match evalCal s.calPres v with
        | some p =>
            { ain0 := a0, ain1 := a1, vd := some v, pres := some p,
              calPres := s.calPres }
        | none =>
            { ain0 := a0, ain1 := a1, vd := some v,
              pres := some ((evalCal calibrationDefaultExpr v).getD 0),
              calPres := calibrationDefaultExpr }
      else
        { ain0 := a0, ain1 := a1, vd := some v, pres := none,
          calPres := s.calPres }
  | none =>
      { ain0 := a0, ain1 := a1, vd := none, pres := none,
        calPres := s.calPres }

/-- C6 as stated is false: with both readings available and equal, the
voltage diff is available (`some 0`) yet no pressure is computed — the
Python truthiness test `if v:` treats a zero diff like an unavailable
one, so the unavailable marker is stored instead of the calibrated value
`-24.036`. -/
theorem C6_counterexample :
    ¬ (((update_ain ⟨none, none, none, none, calibrationDefaultExpr⟩
          (some 2) (some 2)).vd).isSome →
       ((update_ain ⟨none, none, none, none, calibrationDefaultExpr⟩
          (some 2) (some 2)).pres).isSome) ∧
    (update_ain ⟨none, none, none, none, calibrationDefaultExpr⟩
        (some 2) (some 2)).vd = some 0 ∧
    (update_ain ⟨none, none, none, none, calibrationDefaultExpr⟩
        (some 2) (some 2)).pres = none ∧
    evalCal calibrationDefaultExpr 0 = some (-((24036 : ℚ) / 1000)) := by
  have h22 : (2 : ℚ) - 2 = 0 := by norm_num
  have hres : update_ain ⟨none, none, none, none, calibrationDefaultExpr⟩
      (some 2) (some 2) =
      ⟨some 2, some 2, some 0, none, calibrationDefaultExpr⟩ := by
    simp [update_ain, h22]
  refine ⟨?_, ?_, ?_, ?_⟩
  · rw [hres]; simp
  · rw [hres]
  · rw [hres]
  · norm_num [evalCal, calibrationDefaultExpr]

/-- C6 (amended): on every analog-poll tick, the voltage diff is
`ain1 - ain0` when both readings are available and the unavailable marker
when either is unavailable; a failed read publishes the unavailable
marker for its own field; and pressure is computed via the calibration
formula (with default fallback) exactly when the voltage diff is
available **and nonzero** — an unavailable or zero diff stores the
unavailable marker for pressure. -/
theorem C6_voltage_diff_pressure (s : AinState) (read0 read1 : Option ℚ) :
    (∀ a0 a1, read0 = some a0 → read1 = some a1 →
       (update_ain s read0 read1).vd = some (a1 - a0)) ∧
    (read0 = none ∨ read1 = none → (update_ain s read0 read1).vd = none) ∧
    ((update_ain s read0 read1).ain0 = read0 ∧
     (update_ain s read0 read1).ain1 = read1) ∧
    ((update_ain s read0 read1).vd = none →
       (update_ain s read0 read1).pres = none) ∧
    ((update_ain s read0 read1).vd = some 0 →
       (update_ain s read0 read1).pres = none) ∧
    (∀ v, (update_ain s read0 read1).vd = some v → v ≠ 0 →
       (∀ pv, evalCal s.calPres v = some pv →
          (update_ain s read0 read1).pres = some pv) ∧
       (evalCal s.calPres v = none →
          (update_ain s read0 read1).pres =
            evalCal calibrationDefaultExpr v)) := by
  have hdef : ∀ v : ℚ, evalCal calibrationDefaultExpr v =
      some ((50221 : ℚ) / 10000 * v - (24036 : ℚ) / 1000) := fun _ => rfl
  rcases read0 with _ | a0 <;> rcases read1 with _ | a1
  · simp [update_ain]
  · simp [update_ain]
  · simp [update_ain]
  · by_cases hv : a1 - a0 = 0
    · simp [update_ain, hv]
    · rcases hev : evalCal s.calPres (a1 - a0) with _ | p <;>
        simp [update_ain, hv, hev, hdef]

/-- Witness for C6: with formula `(2 * v) + 1` loaded, readings 1 and 4
give voltage diff 3 and pressure 7. -/
theorem C6_voltage_diff_pressure_witness :
    (update_ain ⟨none, none, none, none, calibrationTwoVPlusOne⟩
        (some 1) (some 4)).vd = some 3 ∧
    (update_ain ⟨none, none, none, none, calibrationTwoVPlusOne⟩
        (some 1) (some 4)).pres = some 7 := by
  have h := C6_voltage_diff_pressure
    ⟨none, none, none, none, calibrationTwoVPlusOne⟩ (some 1) (some 4)
  have hvd := h.1 1 4 rfl rfl
  have h31 : (4 : ℚ) - 1 = 3 := by norm_num
  rw [h31] at hvd
  have hev : evalCal calibrationTwoVPlusOne (3 : ℚ) = some 7 := by
    norm_num [evalCal, calibrationTwoVPlusOne]
  exact ⟨hvd, (h.2.2.2.2.2 3 hvd (by norm_num)).1 7 hev⟩

/-- C7: the formula `p = (2 * v) + 1` at v = 3 yields pressure 7; the
default formula always evaluates (so the fallback raises no error to the
caller); when the stored formula fails to evaluate on an available
nonzero voltage diff, the poll handler replaces it with the default and
stores the default's pressure; and once the stored formula is the
default it stays the default on every subsequent call. -/
theorem C7_calibration :
    (evalCal calibrationTwoVPlusOne 3 = some 7) ∧
    (∀ v : ℚ, evalCal calibrationDefaultExpr v =
       some ((50221 : ℚ) / 10000 * v - (24036 : ℚ) / 1000)) ∧
    (∀ (s : AinState) (a0 a1 : ℚ), a1 - a0 ≠ 0 →
       evalCal s.calPres (a1 - a0) = none →
       (update_ain s (some a0) (some a1)).calPres =
         calibrationDefaultExpr ∧
       (update_ain s (some a0) (some a1)).pres =
         some ((50221 : ℚ) / 10000 * (a1 - a0) - (24036 : ℚ) / 1000)) ∧
    (∀ (s : AinState) (read0 read1 : Option ℚ),
       s.calPres = calibrationDefaultExpr →
       (update_ain s read0 read1).calPres = calibrationDefaultExpr) := by
  refine ⟨by norm_num [evalCal, calibrationTwoVPlusOne], fun _ => rfl,
    ?_, ?_⟩
  · intro s a0 a1 hv hev
    have hd : evalCal calibrationDefaultExpr (a1 - a0) =
        some ((50221 : ℚ) / 10000 * (a1 - a0) - (24036 : ℚ) / 1000) := rfl
    constructor <;> simp [update_ain, hv, hev, hd]
  · intro s read0 read1 hcal
    rcases read0 with _ | a0 <;> rcases read1 with _ | a1 <;>
      simp [update_ain, hcal]
    by_cases hv : a1 - a0 = 0
    · simp [hv]
    · rcases hev : evalCal calibrationDefaultExpr (a1 - a0) with _ | p <;>
        simp [hv, hev]

/-- Witness for C7: a formula that divides by `v - v` fails to evaluate;
at readings 1 and 3 the handler swaps in the default and stores the
default pressure. -/
theorem C7_calibration_witness :
    (update_ain ⟨none, none, none, none,
        CalExpr.div (.num 1) (.sub .var .var)⟩ (some 1) (some 3)).calPres =
      calibrationDefaultExpr ∧
    (update_ain ⟨none, none, none, none,
        CalExpr.div (.num 1) (.sub .var .var)⟩ (some 1) (some 3)).pres =
      some ((50221 : ℚ) / 10000 * ((3 : ℚ) - 1) - (24036 : ℚ) / 1000) :=
  C7_calibration.2.2.1 ⟨none, none, none, none,
      CalExpr.div (.num 1) (.sub .var .var)⟩ 1 3 (by norm_num)
    (by norm_num [evalCal])

/-- The header line of `log_state` (source lines 1306-1311): the join of
the string pieces as they appear in the source (the first two pieces are
one adjacent-literal element there). -/
def logHeader : String :=
  String.join ["date,", "sample_name,", "pressure,",
    "voltage_0,voltage_1,voltage_diff",
    "valve_state_1,valve_state_2,", "valve_state_3,valve_state_4\n"]

/-- Contents of the log file: `none` models a file that does not exist,
whose contents read as empty. -/
def fileContents : Option String → String
  | none => ""
  | some s => s

/-- `log_state` (source lines 1296-1329) as a file transformer: if the
file does not exist or has size 0, append the header line; then append
the data row.  Returns the new file contents. -/
def log_state_write (file : Option String) (row : String) : String :=
  let pre :=
    if file = none ∨ (fileContents file).length = 0 then
      fileContents file ++ logHeader
    else fileContents file
  pre ++ row

/-- The data row of `log_state` (source lines 1316-1329): the ten fields
joined by commas, newline-terminated, in the fixed source order. -/
def log_row (ts sn pr a0 a1 vd v1 v2 v3 v4 : String) : String :=
  ts ++ "," ++ sn ++ "," ++ pr ++ "," ++ a0 ++ "," ++ a1 ++ "," ++ vd ++
    "," ++ v1 ++ "," ++ v2 ++ "," ++ v3 ++ "," ++ v4 ++ "\n"

/-- Number of occurrences of a character in a string. -/
def charCount (c : Char) (s : String) : Nat := s.data.count c

/-- A string has length 0 exactly when it is empty. -/
theorem string_length_zero_iff (s : String) : s.length = 0 ↔ s = "" := by
  constructor
  · intro h
    cases s with
    | mk d =>
        cases d with
        | nil => rfl
        | cons c cs => simp [String.length] at h
  · intro h; rw [h]; rfl

/-- Writing to an existing non-empty file appends only the row. -/
theorem log_state_write_of_nonempty (s row : String)
    (h : s.length ≠ 0) : log_state_write (some s) row = s ++ row := by
  have hcond : ¬ ((some s = (none : Option String)) ∨
      (fileContents (some s)).length = 0) := by
    rintro (hh | hh)
    · exact Option.noConfusion hh
    · exact h hh
  simp only [log_state_write]
  rw [if_neg hcond]
  rfl

/-- The result of a `log_state` write is never empty: it contains the
header or the previous non-empty contents, plus the row. -/
theorem log_state_write_ne_empty (file : Option String) (row : String) :
    (log_state_write file row).length ≠ 0 := by
  have hhdr : logHeader.length ≠ 0 := by decide
  by_cases hc : file = none ∨ (fileContents file).length = 0
  · simp [log_state_write, hc, String.length_append]
    intro _ h2
    exact absurd h2 hhdr
  · push_neg at hc
    obtain ⟨hc1, hc2⟩ := hc
    simp [log_state_write, hc1, hc2, String.length_append]

/-- C8: a `log_state` write prepends the header exactly when the target
file does not exist or is empty; the header precedes the data row in a
fresh file; appending to a non-empty file adds no header; and any write
following an earlier write never adds the header again. -/
theorem C8_header_once (file : Option String) (row r1 r2 : String) :
    (file = none ∨ fileContents file = "" →
       log_state_write file row = logHeader ++ row) ∧
    (∀ s, file = some s → s ≠ "" →
       log_state_write file row = s ++ row) ∧
    (log_state_write (some (log_state_write file r1)) r2 =
       log_state_write file r1 ++ r2) := by
  refine ⟨?_, ?_, ?_⟩
  · rintro (h | h)
    · subst h; simp [log_state_write, fileContents]
    · simp [log_state_write, h,
        (string_length_zero_iff (fileContents file)).2 h]
  · intro s hf hs
    subst hf
    exact log_state_write_of_nonempty s row
      (fun h0 => hs ((string_length_zero_iff s).1 h0))
  · exact log_state_write_of_nonempty _ r2
      (log_state_write_ne_empty file r1)

/-- Witness for C8: a write to a missing file is header then row, and a
second write appends just the row. -/
theorem C8_header_once_witness :
    log_state_write none "row" = logHeader ++ "row" ∧
    log_state_write (some (log_state_write none "r1")) "r2" =
      log_state_write none "r1" ++ "r2" :=
  ⟨(C8_header_once none "row" "" "").1 (Or.inl rfl),
   (C8_header_once none "" "r1" "r2").2.2⟩

/-- C9: the header line is exactly the claimed string — with no comma
between voltage_diff and valve_state_1 — and a data row is the ten fields
in fixed order joined by commas and terminated by one newline: for
comma-free fields it contains exactly 9 commas, and for newline-free
fields exactly one newline. -/
theorem C9_log_row_format :
    (logHeader =
      "date,sample_name,pressure,voltage_0,voltage_1,voltage_diffvalve_state_1,valve_state_2,valve_state_3,valve_state_4\n") ∧
    (∀ ts sn pr a0 a1 vd v1 v2 v3 v4 : String,
       log_row ts sn pr a0 a1 vd v1 v2 v3 v4 =
         ts ++ "," ++ sn ++ "," ++ pr ++ "," ++ a0 ++ "," ++ a1 ++ "," ++
           vd ++ "," ++ v1 ++ "," ++ v2 ++ "," ++ v3 ++ "," ++ v4 ++
           "\n") ∧
    (∀ ts sn pr a0 a1 vd v1 v2 v3 v4 : String,
       (∀ f ∈ [ts, sn, pr, a0, a1, vd, v1, v2, v3, v4],
          charCount ',' f = 0) →
       charCount ',' (log_row ts sn pr a0 a1 vd v1 v2 v3 v4) = 9) ∧
    (∀ ts sn pr a0 a1 vd v1 v2 v3 v4 : String,
       (∀ f ∈ [ts, sn, pr, a0, a1, vd, v1, v2, v3, v4],
          charCount '\n' f = 0) →
       charCount '\n' (log_row ts sn pr a0 a1 vd v1 v2 v3 v4) = 1) := by
  refine ⟨by decide, fun ts sn pr a0 a1 vd v1 v2 v3 v4 => rfl, ?_, ?_⟩
  · intro ts sn pr a0 a1 vd v1 v2 v3 v4 h
    have h1 := h ts (by simp)
    have h2 := h sn (by simp)
    have h3 := h pr (by simp)
    have h4 := h a0 (by simp)
    have h5 := h a1 (by simp)
    have h6 := h vd (by simp)
    have h7 := h v1 (by simp)
    have h8 := h v2 (by simp)
    have h9 := h v3 (by simp)
    have h10 := h v4 (by simp)
    simp [charCount] at h1 h2 h3 h4 h5 h6 h7 h8 h9 h10
    simp [charCount, log_row, String.data_append, List.count_append,
      h1, h2, h3, h4, h5, h6, h7, h8, h9, h10]
  · intro ts sn pr a0 a1 vd v1 v2 v3 v4 h
    have h1 := h ts (by simp)
    have h2 := h sn (by simp)
    have h3 := h pr (by simp)
    have h4 := h a0 (by simp)
    have h5 := h a1 (by simp)
    have h6 := h vd (by simp)
    have h7 := h v1 (by simp)
    have h8 := h v2 (by simp)
    have h9 := h v3 (by simp)
    have h10 := h v4 (by simp)
    simp [charCount] at h1 h2 h3 h4 h5 h6 h7 h8 h9 h10
    simp [charCount, log_row, String.data_append, List.count_append,
      h1, h2, h3, h4, h5, h6, h7, h8, h9, h10]

/-- Witness for C9: the comma and newline counts at concrete comma-free
fields. -/
theorem C9_log_row_format_witness :
    charCount ','
      (log_row "d" "s" "p" "a" "b" "v" "w" "x" "y" "z") = 9 ∧
    charCount '\n'
      (log_row "d" "s" "p" "a" "b" "v" "w" "x" "y" "z") = 1 :=
  ⟨C9_log_row_format.2.2.1 "d" "s" "p" "a" "b" "v" "w" "x" "y" "z"
     (by decide),
   C9_log_row_format.2.2.2 "d" "s" "p" "a" "b" "v" "w" "x" "y" "z"
     (by decide)⟩

/-- `toggle_fio_state` (source lines 864-881) on the FIO state map: read
the current state of the port and write 0 if it is nonzero, else 1. -/
def toggle_fio_state (st : Nat → Nat) (fio_id : Nat) : Nat → Nat :=
  fun i =>
    if i = fio_id then if st fio_id ≠ 0 then 0 else 1
    else st i

/-- Effect of one sequence step on the valve state map: `toggle_fio`
emissions are handled by `toggle_fio_state`; other commands leave the
valves alone. -/
def applyStepValves (st : Nat → Nat) (s : Step) : Nat → Nat :=
  match s.cmd with
  | .toggleFioCmd i => toggle_fio_state st i
  | _ => st

/-- Whether a step's label matches the state its toggle actually produced:
an "opening valve n" step must leave port n+3 Open (0), a
"closing valve n" step must leave it Closed (1). -/
def stepLabelOk (stAfter : Nat → Nat) (s : Step) : Bool :=
  match s.cmd with
  | .toggleFioCmd i =>
      if s.msg = "opening valve " ++ toString (i - 3) then stAfter i == 0
      else if s.msg = "closing valve " ++ toString (i - 3) then
        stAfter i == 1
      else false
  | _ => true

/-- Check every step of a sequence against its label, threading the valve
state. -/
def labelConsistent : (Nat → Nat) → List Step → Bool
  | _, [] => true
  | st, s :: rest =>
      let stNext := applyStepValves st s
      stepLabelOk stNext s && labelConsistent stNext rest

/-- C10: every valve actuation toggles the port — reads the current state
and writes 0 if it is nonzero, else 1 — rather than setting a named
state; under the all-Closed precondition every step label of the
sequence matches the state its toggle produces, for any interval; and
from a state where valve 2 is already Open, the step labelled
"opening valve 2" leaves the port Closed, so the label is accurate only
under the precondition. -/
theorem C10_toggle_semantics :
    (∀ (st : Nat → Nat) (i j : Nat),
       toggle_fio_state st i j =
         if j = i then (if st i ≠ 0 then 0 else 1) else st j) ∧
    (∀ n, labelConsistent (fun _ => 1) (set_sequence n) = true) ∧
    (stepLabelOk
       (applyStepValves (fun _ => 0)
         ⟨.toggleFioCmd 5, "opening valve 2", false⟩)
       ⟨.toggleFioCmd 5, "opening valve 2", false⟩ = false ∧
     applyStepValves (fun _ => 0)
       ⟨.toggleFioCmd 5, "opening valve 2", false⟩ 5 = 1) := by
  refine ⟨fun st i j => rfl, fun n => rfl, by decide, by decide⟩

end LabJacker
